import Mathlib

/-!
Verification of the NAV scraper API (`app.py`): a Flask service that downloads a
CSV of fund NAV values and answers `POST /get-nav` requests with a
ticker → NAV-or-null mapping.

The embedding models the two functions that carry the logic:

* `get_navs_from_csv` (app.py lines 11-87): the CSV fetch/parse/lookup, with the
  outcome of the outbound HTTP request abstracted as a `FetchResult` parameter.
* `get_nav` (app.py lines 113-198): the request handler — input-format
  dispatch, validation, fetch, and response assembly.

Python dynamic behaviour is modelled explicitly: dicts are insertion-ordered
association lists; values that may be non-strings are a `PyVal` sum; operations
that raise (`ticker.upper()` on a non-string, tuple-unpacking a dict) surface as
`Option`/dedicated constructors so the handler's `except` route to HTTP 500 is
faithful.
-/

namespace NavScraper

/-- Model of Python `str.upper()` for the ASCII tickers this service handles
(`Char.toUpper` uppercases exactly the ASCII range). -/
def pyUpper (s : String) : String := String.mk (s.data.map Char.toUpper)

/-- Whitespace as recognised by Python `str.strip()` (the ASCII part). -/
def isSpace (c : Char) : Bool :=
  c = ' ' || c = '\t' || c = '\n' || c = '\r' || c = '\x0b' || c = '\x0c'

/-- Drop leading and trailing whitespace from a character list. -/
def trimChars (cs : List Char) : List Char :=
  ((cs.dropWhile isSpace).reverse.dropWhile isSpace).reverse

/-- Model of Python `str.strip()`. -/
def pyStrip (s : String) : String := String.mk (trimChars s.data)

/-- Numeric value of a list of decimal digit characters (most significant first). -/
def digitsNat (cs : List Char) : Nat :=
  cs.foldl (fun n c => 10 * n + (c.toNat - 48)) 0

/-- Split a character list at a single decimal point. Fails when more than one
point is present (as Python `float` does on `"1.2.3"`). -/
def splitDot : List Char → Option (List Char × List Char)
  | [] => some ([], [])
  | c :: r =>
    if c = '.' then
      if r.contains '.' then none else some ([], r)
    else (splitDot r).map (fun p => (c :: p.1, p.2))

/-- Model of Python `float(s)` on decimal literals: optional sign, digits with at
most one decimal point, surrounding whitespace ignored; `none` models the
`ValueError` raised on anything else.  (The Python builtin also accepts
exponents, `inf`/`nan` and underscore separators; NAV cells in this data source
are plain decimals, which this covers.) -/
def pyFloat (s : String) : Option Rat :=
  let cs := trimChars s.data
  let sr : Int × List Char :=
    match cs with
    | '+' :: r => (1, r)
    | '-' :: r => (-1, r)
    | r => (1, r)
  match splitDot sr.2 with
  | none => none
  | some (ip, fp) =>
    if ip.isEmpty && fp.isEmpty then none
    else if (ip ++ fp).all Char.isDigit then
      some (mkRat (sr.1 * (digitsNat (ip ++ fp) : Int)) (10 ^ fp.length))
    else none

/-- A Python value that can appear as an element of the request's `tickers`
list: a string, or (unvalidated input) a number.  `num` stands for any
hashable non-string; calling `.upper()` on it raises `AttributeError`. -/
inductive PyVal where
  | str (s : String)
  | num (n : Int)
deriving DecidableEq, Repr

/-- A Python dict from tickers to NAV-or-None, as an insertion-ordered
association list (the order Python preserves and `jsonify` serialises). -/
abbrev NavDict := List (PyVal × Option Rat)

/-- Python dict assignment `d[k] = v`: update in place when the key exists,
append otherwise. -/
def dictInsert (d : NavDict) (k : PyVal) (v : Option Rat) : NavDict :=
  match d with
  | [] => [(k, v)]
  | e :: rest => if e.1 = k then (k, v) :: rest else e :: dictInsert rest k v

/-- Lookup returning the stored value when the key is present. -/
def dictFind (d : NavDict) (k : PyVal) : Option (Option Rat) :=
  match d with
  | [] => none
  | e :: rest => if e.1 = k then some e.2 else dictFind rest k

/-- The keys of a dict, in insertion order. -/
def dictKeys (d : NavDict) : List PyVal :=
  d.map Prod.fst

/-- Python `d.get(k)`: `None` both when the key is absent and when the stored
value is `None` — the conflation app.py line 183 relies on. -/
def dictGet (d : NavDict) (k : PyVal) : Option Rat :=
  match dictFind d k with
  | some v => v
  | none => none

/-- The dict comprehension `{ticker: None for ticker in tickers}`
(app.py lines 39 and 87). -/
def dictOfNone (tickers : List PyVal) : NavDict :=
  tickers.foldl (fun d t => dictInsert d t none) []

/-- One parsed CSV row: the `Fund Ticker` cell and the `NAV` cell, where `none`
models an empty cell (pandas `NaN`, so `pd.notna` is false, app.py line 66). -/
structure CsvRow where
  fundTicker : String
  nav : Option String
deriving DecidableEq, Repr

/-- The row filter `df['Fund Ticker'].str.upper() == ticker_upper`
(app.py line 59). -/
def rowMatches (r : CsvRow) (tU : String) : Bool :=
  decide (pyUpper r.fundTicker = tU)

/-- `df['Fund Ticker'].str.upper().unique().tolist()` (app.py line 50):
uppercased ticker column with duplicates dropped, first occurrence kept. -/
def uniqueUpper (rows : List CsvRow) : List String :=
  (rows.map (fun r => pyUpper r.fundTicker)).foldl
    (fun acc s => if s ∈ acc then acc else acc ++ [s]) []

/-- The per-ticker lookup loop of app.py lines 53-80.  Returns `none` when the
loop raises: `ticker.upper()` on a non-string element (line 56) throws
`AttributeError`, which aborts the whole loop to the `except` branch.
Otherwise: take the first matching row (`matching_rows['NAV'].iloc[0]`), treat
a null cell or failed `float()` coercion as `None`, and store under the
uppercased ticker key. -/
def buildNavData (rows : List CsvRow) : List PyVal → NavDict → Option NavDict
  | [], acc => some acc
  | t :: ts, acc =>
    match t with
    | .num _ => none
    | .str s =>
      let tU := pyUpper s
      match rows.find? (fun r => rowMatches r tU) with
      | some r =>
        match r.nav with
        | some cell =>
          match pyFloat cell with
          | some q => buildNavData rows ts (dictInsert acc (.str tU) (some q))
          | none => buildNavData rows ts (dictInsert acc (.str tU) none)
        | none => buildNavData rows ts (dictInsert acc (.str tU) none)
      | none => buildNavData rows ts (dictInsert acc (.str tU) none)

/-- Outcome of parsing the downloaded body: `malformed` models `pd.read_csv`
raising, or a `KeyError` from a missing `Fund Ticker`/`NAV` column — both land
in the `except` at app.py line 83; `table` is a successfully parsed frame. -/
inductive CsvBody where
  | malformed
  | table (rows : List CsvRow)
deriving DecidableEq, Repr

/-- Outcome of `requests.get` (app.py line 35): `exn` models a raised transport
error (connection failure, timeout, TLS error), `resp` a returned response with
its status code and body. -/
inductive FetchResult where
  | exn
  | resp (status : Nat) (body : CsvBody)
deriving DecidableEq, Repr

/-- What `get_navs_from_csv` returns.  On a non-200 status (app.py line 39) the
function returns a bare dict; on every other path it returns a
`(nav_data, available_tickers)` 2-tuple (lines 81 and 87).  The sum keeps this
type mismatch visible to the caller. -/
inductive NavsResult where
  | bareDict (d : NavDict)
  | pair (d : NavDict) (avail : List String)
deriving DecidableEq, Repr

/-- `get_navs_from_csv(tickers)` (app.py lines 11-87), with the HTTP outcome as
the `fetch` parameter.  A raised transport error or parse error is caught at
line 83 and yields `({ticker: None ...}, [])`; a non-200 status yields the bare
all-None dict of line 39; on a parsed table, the lookup loop runs, its own
exception (non-string ticker) also landing in the `except` branch. -/
def get_navs_from_csv (fetch : FetchResult) (tickers : List PyVal) : NavsResult :=
  match fetch with
  | .exn => .pair (dictOfNone tickers) []
  | .resp status body =>
    if status ≠ 200 then .bareDict (dictOfNone tickers)
    else
      match body with
      | .malformed => .pair (dictOfNone tickers) []
      | .table rows =>
        match buildNavData rows tickers [] with
        | some d => .pair d (uniqueUpper rows)
        | none => .pair (dictOfNone tickers) []

/-- A JSON value found at the `tickers` or `ticker` key of the request body:
a string, a list, or (for the wrong-type branches) any other value, represented
by a number. -/
inductive ReqVal where
  | str (s : String)
  | list (xs : List PyVal)
  | num (n : Int)
deriving DecidableEq, Repr

/-- The parsed JSON object of a `POST /get-nav` request: the values at the
`tickers` and `ticker` keys, when present. -/
structure Request where
  tickers : Option ReqVal
  ticker : Option ReqVal
deriving DecidableEq, Repr

/-- A `/get-nav` HTTP response: 200 with `navData` and optional `message` /
`available_tickers` fields, 400 with an error description, or the 500 produced
by the handler's `except` (app.py lines 191-198). -/
inductive Response where
  | ok (navData : NavDict) (message : Option String)
      (availableTickers : Option (List String))
  | badRequest (error : String) (message : String)
  | serverError
deriving DecidableEq, Repr

/-- HTTP status code of a response. -/
def statusOf : Response → Nat
  | .ok .. => 200
  | .badRequest .. => 400
  | .serverError => 500

/-- Model of Python `s.split(',')`: groups between commas, empty groups kept. -/
def splitCommaChars : List Char → List (List Char)
  | [] => [[]]
  | c :: rest =>
    if c = ',' then [] :: splitCommaChars rest
    else
      match splitCommaChars rest with
      | [] => [[c]]
      | g :: gs => (c :: g) :: gs

/-- Python `s.split(',')` on strings. -/
def pySplitComma (s : String) : List String :=
  (splitCommaChars s.data).map String.mk

/-- The comma-separated format (app.py line 134):
`[t.strip().upper() for t in s.split(',') if t.strip()]`. -/
def splitTickers (s : String) : List PyVal :=
  ((pySplitComma s).filter (fun t => decide (pyStrip t ≠ ""))).map
    (fun t => .str (pyUpper (pyStrip t)))

/-- Outcome of the input-format dispatch of app.py lines 126-160: a resolved
ticker list, or an immediate 400 response. -/
inductive Resolved where
  | ok (tickers : List PyVal)
  | bad (error : String) (message : String)
deriving DecidableEq, Repr

/-- The input-format dispatch (app.py lines 126-160): `tickers` as a list is
taken as-is (elements unvalidated), as a string it is split on commas, any
other type is a 400; otherwise a string `ticker` is stripped and uppercased,
a non-string `ticker` is a 400, and a request with neither key is a 400. -/
def resolveTickers (req : Request) : Resolved :=
  match req.tickers with
  | some (.list xs) => .ok xs
  | some (.str s) => .ok (splitTickers s)
  | some (.num _) =>
      .bad "Invalid format" "tickers must be an array or comma-separated string"
  | none =>
    match req.ticker with
    | some (.str s) => .ok [.str (pyUpper (pyStrip s))]
    | some _ => .bad "Invalid format" "ticker must be a string"
    | none =>
        .bad "Missing parameter" "Request must include either ticker or tickers"

/-- `', '.join(xs)` (app.py line 186). -/
def joinComma : List String → String
  | [] => ""
  | [x] => x
  | x :: y :: xs => x ++ ", " ++ joinComma (y :: xs)

/-- The comprehension `[t.upper() for t in tickers if nav_data.get(t.upper()) is None]`
(app.py line 183).  `none` models the `AttributeError` raised by `t.upper()` on
a non-string element, which the handler's `except` turns into HTTP 500. -/
def notFoundList (d : NavDict) : List PyVal → Option (List String)
  | [] => some []
  | PyVal.num _ :: _ => none
  | PyVal.str s :: ts =>
    match notFoundList d ts with
    | none => none
    | some rest =>
      if dictGet d (PyVal.str (pyUpper s)) = none then some (pyUpper s :: rest)
      else some rest

/-- The `/get-nav` handler (app.py lines 113-198).  After resolving the ticker
list and rejecting an empty one, it runs
`nav_data, available_tickers = get_navs_from_csv(tickers)`.  When
`get_navs_from_csv` returned the bare dict of line 39, that tuple-unpacking
raises (`ValueError` unless the dict has exactly two keys; with two keys
`nav_data` is bound to a key, a string or number, and `nav_data.get(...)` at
line 183 raises `AttributeError`) — every such run reaches the `except` at line
191 and answers 500, which `.serverError` records.  Likewise a non-string
ticker makes line 183 raise.  Otherwise the `message` and `available_tickers`
fields are attached exactly when the not-found list is non-empty. -/
def get_nav (fetch : FetchResult) (req : Request) : Response :=
  match resolveTickers req with
  | .bad e m => .badRequest e m
  | .ok tickers =>
    if tickers.isEmpty then .badRequest "Empty tickers" "No tickers provided"
    else
      match get_navs_from_csv fetch tickers with
      | .bareDict _ => .serverError
      | .pair d avail =>
        match notFoundList d tickers with
        | none => .serverError
        | some nf =>
          if nf.isEmpty then .ok d none none
          else .ok d (some ("Some tickers not found: " ++ joinComma nf))
                 (some avail)

/-- The ticker list a request resolves to (empty when the request is rejected
before resolution). -/
def resolvedList (req : Request) : List PyVal :=
  match resolveTickers req with
  | .ok ts => ts
  | .bad _ _ => []

/-- Whether a `PyVal` is a string. -/
def isStr : PyVal → Bool
  | .str _ => true
  | .num _ => false

/-- A request that is well-formed per the documented input formats: a
non-empty list of strings at `tickers`, a comma-string resolving to a
non-empty list, or a string at `ticker`. -/
def validRequest (req : Request) : Bool :=
  match req.tickers with
  | some (.list xs) => !xs.isEmpty && xs.all isStr
  | some (.str s) => !(splitTickers s).isEmpty
  | some (.num _) => false
  | none =>
    match req.ticker with
    | some (.str _) => true
    | _ => false

/-- A request the handler must reject with HTTP 400: `tickers` of a wrong
type, `ticker` not a string, both keys missing, or a resolved ticker list
that is empty. -/
def malformedReq (req : Request) : Bool :=
  match req.tickers with
  | some (.num _) => true
  | some (.list xs) => xs.isEmpty
  | some (.str s) => (splitTickers s).isEmpty
  | none =>
    match req.ticker with
    | some (.str _) => false
    | some _ => true
    | none => true

/-- The NAV the CSV determines for one uppercased ticker: the `NAV` cell of
the first row whose uppercased `Fund Ticker` matches, coerced by `float`,
and `none` when there is no matching row, a null cell, or a failed coercion.
This is the per-ticker summary of app.py lines 59-79 that the lookup loop is
proved to agree with. -/
def navValAt (rows : List CsvRow) (tU : String) : Option Rat :=
  match rows.find? (fun r => rowMatches r tU) with
  | some r => r.nav.bind pyFloat
  | none => none

/-- The three per-ticker soft-failure cases: no matching row, a null `NAV`
cell in the first matching row, or a `NAV` cell that fails `float` coercion. -/
def softFail (rows : List CsvRow) (tU : String) : Bool :=
  match rows.find? (fun r => rowMatches r tU) with
  | none => true
  | some r =>
    match r.nav with
    | none => true
    | some cell => (pyFloat cell).isNone

/-- Whether the ticker list contains a string whose uppercasing is `tU`. -/
def hasTicker (ts : List PyVal) (tU : String) : Bool :=
  ts.any (fun t =>
    match t with
    | .str s => decide (pyUpper s = tU)
    | .num _ => false)

/-! ### Dictionary lemmas -/

theorem dictFind_insert_self (d : NavDict) (k : PyVal) (v : Option Rat) :
    dictFind (dictInsert d k v) k = some v := by
  induction d with
  | nil => simp [dictInsert, dictFind]
  | cons e rest ih =>
    by_cases h : e.1 = k
    · simp [dictInsert, h, dictFind]
    · simp [dictInsert, h, dictFind, ih]

theorem dictFind_insert_ne (d : NavDict) (k k' : PyVal) (v : Option Rat)
    (h : k' ≠ k) : dictFind (dictInsert d k v) k' = dictFind d k' := by
  have hkk : ¬ k = k' := fun hk => h hk.symm
  induction d with
  | nil => simp [dictInsert, dictFind, hkk]
  | cons e rest ih =>
    by_cases he : e.1 = k
    · simp [dictInsert, he, dictFind, hkk]
    · simp only [dictInsert, he, if_false, dictFind]
      by_cases he' : e.1 = k'
      · simp [he']
      · simp [he', ih]

theorem dictKeys_insert (d : NavDict) (k : PyVal) (v : Option Rat) :
    dictKeys (dictInsert d k v) =
      if k ∈ dictKeys d then dictKeys d else dictKeys d ++ [k] := by
  induction d with
  | nil => simp [dictInsert, dictKeys]
  | cons e rest ih =>
    by_cases h : e.1 = k
    · simp [dictInsert, h, dictKeys]
    · have hne : ¬ k = e.1 := fun hk => h hk.symm
      simp only [dictInsert, h, if_false, dictKeys, List.map_cons] at ih ⊢
      rw [ih]
      by_cases hk : k ∈ List.map Prod.fst rest
      · simp [hk, List.mem_cons, hne]
      · simp [hk, List.mem_cons, hne]

theorem mem_dictKeys_insert (d : NavDict) (k k' : PyVal) (v : Option Rat) :
    k' ∈ dictKeys (dictInsert d k v) ↔ k' = k ∨ k' ∈ dictKeys d := by
  rw [dictKeys_insert]
  by_cases h : k ∈ dictKeys d
  · simp only [h, if_true]
    constructor
    · exact fun hm => Or.inr hm
    · rintro (rfl | hm)
      · exact h
      · exact hm
  · simp [h, or_comm]

theorem dictKeys_nodup_insert (d : NavDict) (k : PyVal) (v : Option Rat)
    (h : (dictKeys d).Nodup) : (dictKeys (dictInsert d k v)).Nodup := by
  rw [dictKeys_insert]
  by_cases hk : k ∈ dictKeys d
  · simpa [hk] using h
  · simp [hk, List.nodup_append, h]

theorem mem_dictInsert (d : NavDict) (k : PyVal) (v : Option Rat)
    (e : PyVal × Option Rat) (h : e ∈ dictInsert d k v) : e ∈ d ∨ e = (k, v) := by
  induction d with
  | nil =>
    simp [dictInsert] at h
    exact Or.inr h
  | cons f rest ih =>
    by_cases hf : f.1 = k
    · simp only [dictInsert, hf, if_true, List.mem_cons] at h
      rcases h with rfl | h
      · exact Or.inr rfl
      · exact Or.inl (List.mem_cons_of_mem _ h)
    · simp only [dictInsert, hf, if_false, List.mem_cons] at h
      rcases h with rfl | h
      · exact Or.inl (List.mem_cons_self _ _)
      · rcases ih h with h' | h'
        · exact Or.inl (List.mem_cons_of_mem _ h')
        · exact Or.inr h'

theorem dictFind_mem (d : NavDict) (k : PyVal) (v : Option Rat)
    (h : dictFind d k = some v) : (k, v) ∈ d := by
  induction d with
  | nil => simp [dictFind] at h
  | cons e rest ih =>
    by_cases he : e.1 = k
    · simp only [dictFind, he, if_true, Option.some.injEq] at h
      subst h
      rw [← he]
      exact List.mem_cons_self _ _
    · simp only [dictFind, he, if_false] at h
      exact List.mem_cons_of_mem _ (ih h)

theorem dictFind_isSome_of_mem_keys (d : NavDict) (k : PyVal)
    (h : k ∈ dictKeys d) : ∃ v, dictFind d k = some v := by
  induction d with
  | nil => simp [dictKeys] at h
  | cons e rest ih =>
    by_cases he : e.1 = k
    · exact ⟨e.2, by simp [dictFind, he]⟩
    · simp only [dictKeys, List.map_cons, List.mem_cons] at h
      rcases h with rfl | h
      · exact absurd rfl he
      · simpa [dictFind, he] using ih h

/-! ### Lemmas about the all-None dict comprehension -/

theorem dictOfNone_foldl_values (ts : List PyVal) :
    ∀ acc : NavDict, (∀ e ∈ acc, e.2 = none) →
      ∀ e ∈ ts.foldl (fun d t => dictInsert d t none) acc, e.2 = none := by
  induction ts with
  | nil => intro acc hacc e he; exact hacc e he
  | cons t ts ih =>
    intro acc hacc e he
    refine ih (dictInsert acc t none) ?_ e he
    intro f hf
    rcases mem_dictInsert acc t none f hf with h | h
    · exact hacc f h
    · rw [h]

theorem dictOfNone_values (ts : List PyVal) :
    ∀ e ∈ dictOfNone ts, e.2 = none :=
  dictOfNone_foldl_values ts [] (by simp)

theorem dictOfNone_foldl_keys (ts : List PyVal) :
    ∀ (acc : NavDict) (k : PyVal), k ∈ dictKeys acc ∨ k ∈ ts →
      k ∈ dictKeys (ts.foldl (fun d t => dictInsert d t none) acc) := by
  induction ts with
  | nil =>
    intro acc k h
    rcases h with h | h
    · exact h
    · simp at h
  | cons t ts ih =>
    intro acc k h
    refine ih (dictInsert acc t none) k ?_
    rcases h with h | h
    · exact Or.inl ((mem_dictKeys_insert acc t k none).mpr (Or.inr h))
    · rcases List.mem_cons.mp h with heq | h
      · exact Or.inl ((mem_dictKeys_insert acc t k none).mpr (Or.inl heq))
      · exact Or.inr h

theorem dictFind_dictOfNone (ts : List PyVal) (t : PyVal) (h : t ∈ ts) :
    dictFind (dictOfNone ts) t = some none := by
  have hk : t ∈ dictKeys (dictOfNone ts) :=
    dictOfNone_foldl_keys ts [] t (Or.inr h)
  obtain ⟨v, hv⟩ := dictFind_isSome_of_mem_keys _ t hk
  have hm := dictFind_mem _ t v hv
  have := dictOfNone_values ts (t, v) hm
  simp at this
  rw [hv, this]

/-! ### Lemmas about the CSV lookup loop -/

theorem buildNavData_nil (rows : List CsvRow) (acc : NavDict) :
    buildNavData rows [] acc = some acc := rfl

theorem buildNavData_cons_num (rows : List CsvRow) (n : Int) (ts : List PyVal)
    (acc : NavDict) : buildNavData rows (PyVal.num n :: ts) acc = none := rfl

theorem buildNavData_cons_str (rows : List CsvRow) (s : String) (ts : List PyVal)
    (acc : NavDict) :
    buildNavData rows (PyVal.str s :: ts) acc =
      buildNavData rows ts
        (dictInsert acc (PyVal.str (pyUpper s)) (navValAt rows (pyUpper s))) := by
  show (match rows.find? (fun r => rowMatches r (pyUpper s)) with
    | some r =>
      match r.nav with
      | some cell =>
        match pyFloat cell with
        | some q => buildNavData rows ts (dictInsert acc (.str (pyUpper s)) (some q))
        | none => buildNavData rows ts (dictInsert acc (.str (pyUpper s)) none)
      | none => buildNavData rows ts (dictInsert acc (.str (pyUpper s)) none)
    | none => buildNavData rows ts (dictInsert acc (.str (pyUpper s)) none)) = _
  unfold navValAt
  cases hf : rows.find? (fun r => rowMatches r (pyUpper s)) with
  | none => rfl
  | some r =>
    cases hn : r.nav with
    | none => simp [hn, Option.bind]
    | some cell =>
      cases hp : pyFloat cell with
      | none => simp [hn, hp, Option.bind]
      | some q => simp [hn, hp, Option.bind]

theorem buildNavData_find (rows : List CsvRow) :
    ∀ (ts : List PyVal) (acc d : NavDict), buildNavData rows ts acc = some d →
      ∀ tU : String, dictFind d (PyVal.str tU) =
        if hasTicker ts tU then some (navValAt rows tU)
        else dictFind acc (PyVal.str tU) := by
  intro ts
  induction ts with
  | nil =>
    intro acc d h tU
    rw [buildNavData_nil] at h
    cases h
    simp [hasTicker]
  | cons t ts ih =>
    intro acc d h tU
    cases t with
    | num n => rw [buildNavData_cons_num] at h; cases h
    | str s =>
      rw [buildNavData_cons_str] at h
      have hrec := ih _ _ h tU
      by_cases hs : pyUpper s = tU
      · have hhead : hasTicker (PyVal.str s :: ts) tU = true := by
          simp [hasTicker, hs]
        rw [hhead, if_pos rfl]
        by_cases hts : hasTicker ts tU = true
        · rw [hrec, if_pos hts]
        · rw [hrec, if_neg hts]
          subst hs
          exact dictFind_insert_self acc (PyVal.str (pyUpper s)) (navValAt rows (pyUpper s))
      · have hhead : hasTicker (PyVal.str s :: ts) tU = hasTicker ts tU := by
          simp [hasTicker, hs]
        rw [hhead, hrec]
        by_cases hts : hasTicker ts tU = true
        · rw [if_pos hts, if_pos hts]
        · rw [if_neg hts, if_neg hts,
            dictFind_insert_ne acc (PyVal.str (pyUpper s)) (PyVal.str tU) _
              (by intro hc; exact hs (PyVal.str.injEq tU (pyUpper s) ▸ hc).symm)]

theorem buildNavData_keys (rows : List CsvRow) :
    ∀ (ts : List PyVal) (acc d : NavDict), buildNavData rows ts acc = some d →
      ∀ k : PyVal, k ∈ dictKeys d ↔
        (k ∈ dictKeys acc ∨ ∃ s, PyVal.str s ∈ ts ∧ k = PyVal.str (pyUpper s)) := by
  intro ts
  induction ts with
  | nil =>
    intro acc d h k
    rw [buildNavData_nil] at h
    cases h
    simp
  | cons t ts ih =>
    intro acc d h k
    cases t with
    | num n => rw [buildNavData_cons_num] at h; cases h
    | str s =>
      rw [buildNavData_cons_str] at h
      rw [ih _ _ h k, mem_dictKeys_insert]
      constructor
      · rintro ((rfl | hacc) | ⟨s', hs', rfl⟩)
        · exact Or.inr ⟨s, List.mem_cons_self _ _, rfl⟩
        · exact Or.inl hacc
        · exact Or.inr ⟨s', List.mem_cons_of_mem _ hs', rfl⟩
      · rintro (hacc | ⟨s', hs', rfl⟩)
        · exact Or.inl (Or.inr hacc)
        · rcases List.mem_cons.mp hs' with heq | hmem
          · cases heq
            exact Or.inl (Or.inl rfl)
          · exact Or.inr ⟨s', hmem, rfl⟩

theorem buildNavData_nodup (rows : List CsvRow) :
    ∀ (ts : List PyVal) (acc d : NavDict), buildNavData rows ts acc = some d →
      (dictKeys acc).Nodup → (dictKeys d).Nodup := by
  intro ts
  induction ts with
  | nil =>
    intro acc d h hacc
    rw [buildNavData_nil] at h
    cases h
    exact hacc
  | cons t ts ih =>
    intro acc d h hacc
    cases t with
    | num n => rw [buildNavData_cons_num] at h; cases h
    | str s =>
      rw [buildNavData_cons_str] at h
      exact ih _ _ h (dictKeys_nodup_insert _ _ _ hacc)

theorem buildNavData_entries (rows : List CsvRow) :
    ∀ (ts : List PyVal) (acc d : NavDict), buildNavData rows ts acc = some d →
      ∀ e ∈ d, e ∈ acc ∨ ∃ tU, e = (PyVal.str tU, navValAt rows tU) := by
  intro ts
  induction ts with
  | nil =>
    intro acc d h e he
    rw [buildNavData_nil] at h
    cases h
    exact Or.inl he
  | cons t ts ih =>
    intro acc d h e he
    cases t with
    | num n => rw [buildNavData_cons_num] at h; cases h
    | str s =>
      rw [buildNavData_cons_str] at h
      rcases ih _ _ h e he with hmem | hval
      · rcases mem_dictInsert _ _ _ e hmem with hmem' | heq
        · exact Or.inl hmem'
        · exact Or.inr ⟨pyUpper s, heq⟩
      · exact Or.inr hval

theorem buildNavData_none (rows : List CsvRow) :
    ∀ (ts : List PyVal) (acc : NavDict), buildNavData rows ts acc = none →
      ∃ n, PyVal.num n ∈ ts := by
  intro ts
  induction ts with
  | nil => intro acc h; rw [buildNavData_nil] at h; cases h
  | cons t ts ih =>
    intro acc h
    cases t with
    | num n => exact ⟨n, List.mem_cons_self _ _⟩
    | str s =>
      rw [buildNavData_cons_str] at h
      obtain ⟨n, hn⟩ := ih _ h
      exact ⟨n, List.mem_cons_of_mem _ hn⟩

theorem buildNavData_strings (rows : List CsvRow) :
    ∀ (ts : List PyVal) (acc d : NavDict), buildNavData rows ts acc = some d →
      ∀ t ∈ ts, ∃ s, t = PyVal.str s := by
  intro ts
  induction ts with
  | nil => intro acc d _ t ht; simp at ht
  | cons t' ts ih =>
    intro acc d h t ht
    cases t' with
    | num n => rw [buildNavData_cons_num] at h; cases h
    | str s =>
      rw [buildNavData_cons_str] at h
      rcases List.mem_cons.mp ht with rfl | hmem
      · exact ⟨s, rfl⟩
      · exact ih _ _ h t hmem

/-! ### Lemmas about the not-found comprehension -/

theorem notFoundList_isSome (d : NavDict) :
    ∀ ts : List PyVal, (∀ t ∈ ts, ∃ s, t = PyVal.str s) →
      ∃ nf, notFoundList d ts = some nf := by
  intro ts
  induction ts with
  | nil => intro _; exact ⟨[], rfl⟩
  | cons t ts ih =>
    intro h
    obtain ⟨s, rfl⟩ := h t (List.mem_cons_self _ _)
    obtain ⟨rest, hrest⟩ := ih (fun t' ht' => h t' (List.mem_cons_of_mem _ ht'))
    by_cases hg : dictGet d (PyVal.str (pyUpper s)) = none
    · exact ⟨pyUpper s :: rest, by simp [notFoundList, hrest, hg]⟩
    · exact ⟨rest, by simp [notFoundList, hrest, hg]⟩

theorem notFoundList_none_of_num (d : NavDict) (n : Int) :
    ∀ ts : List PyVal, PyVal.num n ∈ ts → notFoundList d ts = none := by
  intro ts
  induction ts with
  | nil => intro h; simp at h
  | cons t ts ih =>
    intro h
    cases t with
    | num m => rfl
    | str s =>
      rcases List.mem_cons.mp h with heq | hmem
      · simp at heq
      · simp [notFoundList, ih hmem]

theorem notFoundList_ne_nil_iff (d : NavDict) :
    ∀ (ts : List PyVal) (nf : List String), notFoundList d ts = some nf →
      (nf ≠ [] ↔ ∃ s, PyVal.str s ∈ ts ∧ dictGet d (PyVal.str (pyUpper s)) = none) := by
  intro ts
  induction ts with
  | nil =>
    intro nf h
    simp only [notFoundList, Option.some.injEq] at h
    subst h
    simp
  | cons t ts ih =>
    intro nf h
    cases t with
    | num n => simp [notFoundList] at h
    | str s =>
      cases hrest : notFoundList d ts with
      | none => simp [notFoundList, hrest] at h
      | some rest =>
        simp only [notFoundList, hrest] at h
        by_cases hg : dictGet d (PyVal.str (pyUpper s)) = none
        · rw [if_pos hg, Option.some.injEq] at h
          subst h
          exact iff_of_true (by simp) ⟨s, List.mem_cons_self _ _, hg⟩
        · rw [if_neg hg, Option.some.injEq] at h
          subst h
          rw [ih rest hrest]
          constructor
          · rintro ⟨s', hs', hg'⟩
            exact ⟨s', List.mem_cons_of_mem _ hs', hg'⟩
          · rintro ⟨s', hs', hg'⟩
            rcases List.mem_cons.mp hs' with heq | hmem
            · injection heq with heqs
              subst heqs
              exact absurd hg' hg
            · exact ⟨s', hmem, hg'⟩

/-! ### Inversion of the handler on 200 responses -/

theorem get_nav_ok_inv {fetch : FetchResult} {req : Request} {d : NavDict}
    {m : Option String} {a : Option (List String)}
    (h : get_nav fetch req = Response.ok d m a) :
    resolvedList req ≠ [] ∧
    (∃ avail, get_navs_from_csv fetch (resolvedList req) = NavsResult.pair d avail) ∧
    ∃ nf, notFoundList d (resolvedList req) = some nf ∧
      (m.isSome = true ↔ nf ≠ []) ∧ (a.isSome = true ↔ nf ≠ []) := by
  unfold get_nav at h
  cases hres : resolveTickers req with
  | bad e msg => rw [hres] at h; simp at h
  | ok ts =>
    rw [hres] at h
    dsimp only at h
    have hrl : resolvedList req = ts := by simp [resolvedList, hres]
    rw [hrl]
    by_cases hemp : ts.isEmpty = true
    · rw [if_pos hemp] at h; simp at h
    · rw [if_neg hemp] at h
      refine ⟨by simpa using hemp, ?_⟩
      cases hget : get_navs_from_csv fetch ts with
      | bareDict d' => rw [hget] at h; simp at h
      | pair d' avail =>
        rw [hget] at h
        dsimp only at h
        cases hnf : notFoundList d' ts with
        | none => rw [hnf] at h; simp at h
        | some nf =>
          rw [hnf] at h
          dsimp only at h
          by_cases hnfe : nf.isEmpty = true
          · rw [if_pos hnfe] at h
            simp only [Response.ok.injEq] at h
            obtain ⟨rfl, hm, ha⟩ := h
            subst hm
            subst ha
            have : nf = [] := by simpa using hnfe
            exact ⟨⟨avail, rfl⟩, nf, hnf, by simp [this], by simp [this]⟩
          · rw [if_neg hnfe] at h
            simp only [Response.ok.injEq] at h
            obtain ⟨rfl, hm, ha⟩ := h
            subst hm
            subst ha
            have : nf ≠ [] := by simpa using hnfe
            exact ⟨⟨avail, rfl⟩, nf, hnf, by simp [this], by simp [this]⟩

theorem get_nav_ok_table {rows : List CsvRow} {req : Request} {d : NavDict}
    {m : Option String} {a : Option (List String)}
    (h : get_nav (FetchResult.resp 200 (CsvBody.table rows)) req = Response.ok d m a) :
    buildNavData rows (resolvedList req) [] = some d := by
  obtain ⟨hne, ⟨avail, hget⟩, nf, hnf, -⟩ := get_nav_ok_inv h
  unfold get_navs_from_csv at hget
  simp only [ne_eq, not_true_eq_false, if_false] at hget
  cases hbuild : buildNavData rows (resolvedList req) [] with
  | some d'' =>
    rw [hbuild] at hget
    simp only [NavsResult.pair.injEq] at hget
    rw [hget.1]
  | none =>
    rw [hbuild] at hget
    simp only [NavsResult.pair.injEq] at hget
    obtain ⟨n, hn⟩ := buildNavData_none rows _ _ hbuild
    have hcontra := notFoundList_none_of_num d n _ hn
    rw [hcontra] at hnf
    cases hnf

theorem validRequest_resolved {req : Request} (h : validRequest req = true) :
    resolvedList req ≠ [] ∧ ∀ t ∈ resolvedList req, ∃ s, t = PyVal.str s := by
  unfold validRequest at h
  unfold resolvedList resolveTickers
  cases hts : req.tickers with
  | some v =>
    rw [hts] at h
    cases v with
    | num n => simp at h
    | list xs =>
      dsimp only at h ⊢
      simp only [Bool.and_eq_true, Bool.not_eq_true'] at h
      refine ⟨by simpa using h.1, ?_⟩
      intro t ht
      have := (List.all_eq_true.mp h.2) t ht
      cases t with
      | str s => exact ⟨s, rfl⟩
      | num n => simp [isStr] at this
    | str s =>
      dsimp only at h ⊢
      simp only [Bool.not_eq_true'] at h
      refine ⟨by simpa using h, ?_⟩
      intro t ht
      unfold splitTickers at ht
      obtain ⟨u, -, rfl⟩ := List.mem_map.mp ht
      exact ⟨pyUpper (pyStrip u), rfl⟩
  | none =>
    rw [hts] at h
    cases htk : req.ticker with
    | none => simp [htk] at h
    | some v =>
      rw [htk] at h
      cases v with
      | str s =>
        dsimp only
        refine ⟨by simp, ?_⟩
        intro t ht
        rw [List.mem_singleton] at ht
        subst ht
        exact ⟨pyUpper (pyStrip s), rfl⟩
      | list xs => simp at h
      | num n => simp at h

theorem navValAt_eq_none_of_softFail (rows : List CsvRow) (tU : String)
    (h : softFail rows tU = true) : navValAt rows tU = none := by
  unfold softFail at h
  unfold navValAt
  cases hf : rows.find? (fun r => rowMatches r tU) with
  | none => rfl
  | some r =>
    rw [hf] at h
    dsimp only at h ⊢
    cases hn : r.nav with
    | none => simp [hn]
    | some cell =>
      rw [hn] at h
      dsimp only at h
      simp [hn, Option.isNone_iff_eq_none.mp h]

theorem find?_first {α : Type} (p : α → Bool) (rows1 : List α) (r : α)
    (rows2 : List α) (h1 : ∀ r' ∈ rows1, p r' = false) (hr : p r = true) :
    (rows1 ++ r :: rows2).find? p = some r := by
  induction rows1 with
  | nil => simp [List.find?_cons_of_pos, hr]
  | cons x xs ih =>
    rw [List.cons_append, List.find?_cons_of_neg _ (by simp [h1 x (List.mem_cons_self _ _)])]
    exact ih (fun r' h' => h1 r' (List.mem_cons_of_mem _ h'))

theorem hasTicker_of_mem {ts : List PyVal} {s : String}
    (hs : PyVal.str s ∈ ts) : hasTicker ts (pyUpper s) = true := by
  unfold hasTicker
  rw [List.any_eq_true]
  exact ⟨PyVal.str s, hs, by simp⟩

/-! ### Claims -/

/-- C1: the spec states that a total CSV-fetch failure — network failure,
timeout, non-2xx HTTP status, or CSV parse failure — makes `get_navs_from_csv`
resolve every requested ticker to null without the failure raising past the
`/get-nav` handler.  The code violates this for the non-2xx case: line 39
returns a bare all-None dict where every other path returns a
`(nav_data, available_tickers)` tuple, so the handler's tuple unpacking raises
and the request ends in HTTP 500.  This theorem evaluates the code at the
failing input: the bare dict (first conjunct), the resulting 500 (second), and,
for contrast, the 200 the same request gets on a transport error (third). -/
theorem C1_non200_returns_500 :
    get_navs_from_csv (FetchResult.resp 404 (CsvBody.table [])) [PyVal.str "TSLW"]
      = NavsResult.bareDict [(PyVal.str "TSLW", none)] ∧
    statusOf (get_nav (FetchResult.resp 404 (CsvBody.table []))
      { tickers := none, ticker := some (ReqVal.str "TSLW") }) = 500 ∧
    statusOf (get_nav FetchResult.exn
      { tickers := none, ticker := some (ReqVal.str "TSLW") }) = 200 := by
  refine ⟨by decide, by decide, by decide⟩

/-- C2: for every valid `/get-nav` request, a transport exception on the
outbound GET (origin fully unreachable) yields HTTP 200 with a navData mapping
holding an entry for every resolved ticker, each mapped to null — not
HTTP 500. -/
theorem C2_unreachable_origin_ok (req : Request) (h : validRequest req = true) :
    statusOf (get_nav FetchResult.exn req) = 200 ∧
    (∃ m a, get_nav FetchResult.exn req
        = Response.ok (dictOfNone (resolvedList req)) m a) ∧
    ∀ t ∈ resolvedList req, dictFind (dictOfNone (resolvedList req)) t = some none := by
  obtain ⟨hne, hstr⟩ := validRequest_resolved h
  have hres : resolveTickers req = Resolved.ok (resolvedList req) := by
    unfold resolvedList
    cases hr : resolveTickers req with
    | ok ts => rfl
    | bad e msg =>
      exfalso
      apply hne
      unfold resolvedList
      rw [hr]
  obtain ⟨nf, hnf⟩ := notFoundList_isSome (dictOfNone (resolvedList req)) _ hstr
  have hemp : (resolvedList req).isEmpty = false := by
    cases hl : resolvedList req with
    | nil => exact absurd hl hne
    | cons x xs => rfl
  have hgn : get_nav FetchResult.exn req =
      if nf.isEmpty then Response.ok (dictOfNone (resolvedList req)) none none
      else Response.ok (dictOfNone (resolvedList req))
        (some ("Some tickers not found: " ++ joinComma nf)) (some []) := by
    unfold get_nav
    rw [hres]
    dsimp only
    rw [if_neg (by simp [hemp])]
    dsimp only [get_navs_from_csv]
    rw [hnf]
  refine ⟨?_, ?_, fun t ht => dictFind_dictOfNone _ t ht⟩
  · rw [hgn]
    by_cases hnfe : nf.isEmpty = true
    · rw [if_pos hnfe]; rfl
    · rw [if_neg hnfe]; rfl
  · by_cases hnfe : nf.isEmpty = true
    · exact ⟨none, none, by rw [hgn, if_pos hnfe]⟩
    · exact ⟨_, _, by rw [hgn, if_neg hnfe]⟩

/-- C2 witness: the single-ticker request "tslw" against an unreachable
origin gets status 200 with its resolved ticker "TSLW" mapped to null. -/
theorem C2_witness :
    statusOf (get_nav FetchResult.exn
      { tickers := none, ticker := some (ReqVal.str "tslw") }) = 200 ∧
    dictFind (dictOfNone (resolvedList
        { tickers := none, ticker := some (ReqVal.str "tslw") }))
      (PyVal.str "TSLW") = some none := by
  have h := C2_unreachable_origin_ok
    { tickers := none, ticker := some (ReqVal.str "tslw") } (by decide)
  exact ⟨h.1, h.2.2 (PyVal.str "TSLW") (by decide)⟩

/-- C3 counterexample: the claim says navData is keyed by the canonical
uppercase ticker in every accepted input format.  A list-format request for
"tslw" during a fetch failure gets a 200 response whose navData is keyed by
the raw lowercase "tslw" — the uppercase key "TSLW" is absent — because the
all-None dict of app.py line 87 is built from the unnormalised list elements. -/
theorem C3_counterexample :
    get_nav FetchResult.exn
      { tickers := some (ReqVal.list [PyVal.str "tslw"]), ticker := none }
      = Response.ok [(PyVal.str "tslw", none)]
          (some "Some tickers not found: TSLW") (some []) ∧
    dictFind [(PyVal.str "tslw", none)] (PyVal.str "TSLW") = none := by
  refine ⟨by decide, by decide⟩

/-- C3 (amended to responses whose CSV fetch and parse succeeded): the navData
of a 200 response built from a parsed table has no duplicate keys, contains
the uppercased form of every requested ticker, and contains nothing else —
exactly one entry per distinct requested ticker, keyed uppercase. -/
theorem C3_upper_keys_after_parse (rows : List CsvRow) (req : Request)
    (d : NavDict) (m : Option String) (a : Option (List String))
    (h : get_nav (FetchResult.resp 200 (CsvBody.table rows)) req = Response.ok d m a) :
    (dictKeys d).Nodup ∧
    (∀ s, PyVal.str s ∈ resolvedList req → PyVal.str (pyUpper s) ∈ dictKeys d) ∧
    (∀ k ∈ dictKeys d, ∃ s, PyVal.str s ∈ resolvedList req ∧ k = PyVal.str (pyUpper s)) := by
  have hb := get_nav_ok_table h
  refine ⟨buildNavData_nodup rows _ _ _ hb (by simp [dictKeys]), ?_, ?_⟩
  · intro s hs
    exact (buildNavData_keys rows _ _ _ hb _).mpr (Or.inr ⟨s, hs, rfl⟩)
  · intro k hk
    rcases (buildNavData_keys rows _ _ _ hb k).mp hk with hacc | hex
    · simp [dictKeys] at hacc
    · exact hex

/-- C3 witness: a parsed one-row table and the request "abc" produce the
single uppercase key "ABC". -/
theorem C3_witness :
    (dictKeys [(PyVal.str "ABC", some (mkRat 1234 100))]).Nodup ∧
    PyVal.str (pyUpper "ABC") ∈ dictKeys [(PyVal.str "ABC", some (mkRat 1234 100))] := by
  have h := C3_upper_keys_after_parse [⟨"AbC", some "12.34"⟩]
    { tickers := none, ticker := some (ReqVal.str "abc") }
    [(PyVal.str "ABC", some (mkRat 1234 100))] none none (by decide)
  exact ⟨h.1, h.2.1 "ABC" (by decide)⟩

/-- C4 counterexample: the claim quantifies over every CSV body containing a
row with ticker "ABC" (any casing) and NAV "12.34"; but when an earlier row
also matches case-insensitively, the first match wins, so this body — whose
second row is exactly such a row — yields 9, not 12.34. -/
theorem C4_counterexample :
    get_nav (FetchResult.resp 200
        (CsvBody.table [⟨"abc", some "9"⟩, ⟨"ABC", some "12.34"⟩]))
      { tickers := none, ticker := some (ReqVal.str "abc") }
      = Response.ok [(PyVal.str "ABC", some (mkRat 9 1))] none none ∧
    (mkRat 9 1) ≠ (12.34 : Rat) := by
  refine ⟨by decide, by norm_num [mkRat, Rat.normalize]⟩

/-- C4 (amended: the row with NAV "12.34" is the first case-insensitive match
for "ABC"): requesting "abc" then yields the NAV 12.34 — ticker matching is
case-insensitive. -/
theorem C4_case_insensitive_lookup (rows : List CsvRow) (rr : CsvRow)
    (d : NavDict) (m : Option String) (a : Option (List String))
    (h : get_nav (FetchResult.resp 200 (CsvBody.table rows))
      { tickers := none, ticker := some (ReqVal.str "abc") } = Response.ok d m a)
    (hfind : rows.find? (fun r => rowMatches r "ABC") = some rr)
    (hnav : rr.nav = some "12.34") :
    dictFind d (PyVal.str "ABC") = some (some (mkRat 1234 100)) ∧
    (mkRat 1234 100 : Rat) = 12.34 := by
  have hb := get_nav_ok_table h
  have hrl : resolvedList { tickers := none, ticker := some (ReqVal.str "abc") }
      = [PyVal.str "ABC"] := by decide
  rw [hrl] at hb
  have hfind2 := buildNavData_find rows _ _ _ hb "ABC"
  rw [if_pos (by decide : hasTicker [PyVal.str "ABC"] "ABC" = true)] at hfind2
  refine ⟨?_, by norm_num [mkRat, Rat.normalize]⟩
  rw [hfind2]
  unfold navValAt
  rw [hfind]
  dsimp only
  rw [hnav]
  decide

/-- C4 witness: a one-row table with ticker "AbC" and NAV cell "12.34",
requested as "abc". -/
theorem C4_witness :
    dictFind [(PyVal.str "ABC", some (mkRat 1234 100))] (PyVal.str "ABC")
      = some (some (mkRat 1234 100)) ∧ (mkRat 1234 100 : Rat) = 12.34 :=
  C4_case_insensitive_lookup [⟨"AbC", some "12.34"⟩] ⟨"AbC", some "12.34"⟩
    [(PyVal.str "ABC", some (mkRat 1234 100))] none none
    (by decide) (by decide) (by decide)

/-- C5: per-ticker lookup failure is soft.  In a 200 response from a parsed
table, every requested ticker's entry equals the per-ticker value determined
by the CSV alone (so one ticker's outcome cannot affect another's), and when
the ticker has no matching row, a null NAV cell, or a cell that fails float
coercion, that entry is null — while the response is still a 200, not an
error. -/
theorem C5_soft_per_ticker (rows : List CsvRow) (req : Request) (d : NavDict)
    (m : Option String) (a : Option (List String)) (s : String)
    (h : get_nav (FetchResult.resp 200 (CsvBody.table rows)) req = Response.ok d m a)
    (hs : PyVal.str s ∈ resolvedList req) :
    dictFind d (PyVal.str (pyUpper s)) = some (navValAt rows (pyUpper s)) ∧
    (softFail rows (pyUpper s) = true →
      dictFind d (PyVal.str (pyUpper s)) = some none) := by
  have hb := get_nav_ok_table h
  have hfind := buildNavData_find rows _ _ _ hb (pyUpper s)
  rw [if_pos (hasTicker_of_mem hs)] at hfind
  exact ⟨hfind, fun hsf => by
    rw [hfind, navValAt_eq_none_of_softFail rows _ hsf]⟩

/-- C5 witness: ticker "XY" whose NAV cell "oops" fails float coercion
resolves to null in a 200 response. -/
theorem C5_witness :
    dictFind [(PyVal.str "XY", none)] (PyVal.str (pyUpper "XY"))
      = some (navValAt [⟨"XY", some "oops"⟩] (pyUpper "XY")) ∧
    (softFail [⟨"XY", some "oops"⟩] (pyUpper "XY") = true →
      dictFind [(PyVal.str "XY", none)] (PyVal.str (pyUpper "XY")) = some none) :=
  C5_soft_per_ticker [⟨"XY", some "oops"⟩]
    { tickers := none, ticker := some (ReqVal.str "xy") }
    [(PyVal.str "XY", none)] (some "Some tickers not found: XY") (some ["XY"])
    "XY" (by decide) (by decide)

/-- C6: a malformed request — `tickers` of a wrong type, `ticker` not a
string, both keys missing, or a resolved ticker list that is empty — gets
HTTP 400, whatever the CSV fetch would have done. -/
theorem C6_malformed_request_400 (fetch : FetchResult) (req : Request)
    (h : malformedReq req = true) : statusOf (get_nav fetch req) = 400 := by
  unfold malformedReq at h
  unfold get_nav resolveTickers
  cases hts : req.tickers with
  | some v =>
    rw [hts] at h
    cases v with
    | num n => rfl
    | list xs =>
      dsimp only at h ⊢
      rw [if_pos h]
      rfl
    | str s =>
      dsimp only at h ⊢
      rw [if_pos h]
      rfl
  | none =>
    rw [hts] at h
    cases htk : req.ticker with
    | none => rfl
    | some v =>
      rw [htk] at h
      cases v with
      | str s => simp at h
      | list xs => rfl
      | num n => rfl

/-- C6 witness: a request with neither `ticker` nor `tickers` gets 400. -/
theorem C6_witness :
    statusOf (get_nav FetchResult.exn { tickers := none, ticker := none }) = 400 :=
  C6_malformed_request_400 FetchResult.exn { tickers := none, ticker := none }
    (by decide)

/-- C7 counterexample: the claim says `message`/`available_tickers` appear
exactly when some requested ticker was not found in the source.  Here the
requested ticker "ABC" is present in the CSV (its row matches,
second conjunct), yet because its NAV cell "x" fails float coercion the
entry is null and both fields appear anyway. -/
theorem C7_counterexample :
    get_nav (FetchResult.resp 200 (CsvBody.table [⟨"ABC", some "x"⟩]))
      { tickers := none, ticker := some (ReqVal.str "ABC") }
      = Response.ok [(PyVal.str "ABC", none)]
          (some "Some tickers not found: ABC") (some ["ABC"]) ∧
    rowMatches ⟨"ABC", some "x"⟩ (pyUpper "ABC") = true := by
  refine ⟨by decide, by decide⟩

/-- C7 (amended from "not found in the source" to "resolved to null"): in
every 200 response, `message` and `available_tickers` are present together,
and they are present exactly when some requested ticker's navData entry is
null — whether missing from the source, null-celled, or unparseable. -/
theorem C7_message_iff_unresolved (fetch : FetchResult) (req : Request)
    (d : NavDict) (m : Option String) (a : Option (List String))
    (h : get_nav fetch req = Response.ok d m a) :
    (m.isSome = true ↔ a.isSome = true) ∧
    (m.isSome = true ↔
      ∃ s, PyVal.str s ∈ resolvedList req ∧
        dictGet d (PyVal.str (pyUpper s)) = none) := by
  obtain ⟨-, -, nf, hnf, hm, ha⟩ := get_nav_ok_inv h
  exact ⟨hm.trans ha.symm, hm.trans (notFoundList_ne_nil_iff d _ nf hnf)⟩

/-- C7 witness: the "tslw" request against an unreachable origin carries both
optional fields, and indeed its resolved ticker maps to null. -/
theorem C7_witness :
    ((some "Some tickers not found: TSLW").isSome = true ↔
      (some ([] : List String)).isSome = true) ∧
    ((some "Some tickers not found: TSLW").isSome = true ↔
      ∃ s, PyVal.str s ∈ resolvedList
          { tickers := none, ticker := some (ReqVal.str "tslw") } ∧
        dictGet [(PyVal.str "TSLW", none)] (PyVal.str (pyUpper s)) = none) :=
  C7_message_iff_unresolved FetchResult.exn
    { tickers := none, ticker := some (ReqVal.str "tslw") }
    [(PyVal.str "TSLW", none)] (some "Some tickers not found: TSLW") (some [])
    (by decide)

/-- C8: when several rows match a requested ticker case-insensitively, the
NAV reported is taken from the first matching row: rows before it do not
match, rows after it are ignored. -/
theorem C8_first_matching_row (rows1 : List CsvRow) (r : CsvRow)
    (rows2 : List CsvRow) (req : Request) (d : NavDict) (m : Option String)
    (a : Option (List String)) (s : String)
    (h : get_nav (FetchResult.resp 200 (CsvBody.table (rows1 ++ r :: rows2))) req
      = Response.ok d m a)
    (hs : PyVal.str s ∈ resolvedList req)
    (hmatch : pyUpper r.fundTicker = pyUpper s)
    (hnomatch : ∀ r' ∈ rows1, pyUpper r'.fundTicker ≠ pyUpper s) :
    dictFind d (PyVal.str (pyUpper s)) = some (r.nav.bind pyFloat) := by
  have hb := get_nav_ok_table h
  have hfind := buildNavData_find _ _ _ _ hb (pyUpper s)
  rw [if_pos (hasTicker_of_mem hs)] at hfind
  rw [hfind]
  unfold navValAt
  rw [find?_first _ rows1 r rows2
    (fun r' h' => by
      simp only [rowMatches, decide_eq_false_iff_not]
      exact hnomatch r' h')
    (by simp only [rowMatches, decide_eq_true_eq]; exact hmatch)]

/-- C8 witness: with matching rows "AbC" (NAV 3) and "ABC" (NAV 4) in that
order after a non-matching row, requesting "abc" yields the first match's 3. -/
theorem C8_witness :
    dictFind [(PyVal.str "ABC", some (mkRat 3 1))] (PyVal.str (pyUpper "ABC"))
      = some ((CsvRow.mk "AbC" (some "3")).nav.bind pyFloat) :=
  C8_first_matching_row [⟨"OTH", some "1"⟩] ⟨"AbC", some "3"⟩ [⟨"ABC", some "4"⟩]
    { tickers := none, ticker := some (ReqVal.str "abc") }
    [(PyVal.str "ABC", some (mkRat 3 1))] none none "ABC"
    (by decide) (by decide) (by decide) (by decide)

/-- C9 counterexample: the claim says every numeric NAV the service returns
is non-negative, but `float()` coercion accepts a sign, so a CSV whose NAV
cell is "-1" makes the service return the negative value -1. -/
theorem C9_counterexample :
    get_nav (FetchResult.resp 200 (CsvBody.table [⟨"NEG", some "-1"⟩]))
      { tickers := none, ticker := some (ReqVal.str "neg") }
      = Response.ok [(PyVal.str "NEG", some (mkRat (-1) 1))] none none ∧
    mkRat (-1) 1 < 0 := by
  refine ⟨by decide, by decide⟩

/-- C9 (amended with the forced hypothesis that the CSV's NAV cells are
non-negative): every numeric value in the response's navData is the float
coercion of some row's NAV cell, hence non-negative whenever all cells are. -/
theorem C9_returned_values_from_cells (rows : List CsvRow) (req : Request)
    (d : NavDict) (m : Option String) (a : Option (List String))
    (h : get_nav (FetchResult.resp 200 (CsvBody.table rows)) req = Response.ok d m a)
    (hpos : ∀ r ∈ rows, ∀ cell q, r.nav = some cell → pyFloat cell = some q → 0 ≤ q) :
    ∀ k q, (k, some q) ∈ d → 0 ≤ q := by
  intro k q hkq
  have hb := get_nav_ok_table h
  rcases buildNavData_entries rows _ _ _ hb _ hkq with hacc | ⟨tU, heq⟩
  · simp at hacc
  · have hv : navValAt rows tU = some q := by
      have := congrArg Prod.snd heq
      simpa using this.symm
    unfold navValAt at hv
    cases hf : rows.find? (fun r => rowMatches r tU) with
    | none => rw [hf] at hv; cases hv
    | some r =>
      rw [hf] at hv
      dsimp only at hv
      have hrmem : r ∈ rows := List.mem_of_find?_eq_some hf
      cases hn : r.nav with
      | none => rw [hn] at hv; simp at hv
      | some cell =>
        rw [hn] at hv
        simp only [Option.bind] at hv
        exact hpos r hrmem cell q hn hv

/-- C9 witness: a table whose only NAV cell is "12.34" gives a non-negative
returned value. -/
theorem C9_witness : (0 : Rat) ≤ mkRat 1234 100 := by
  refine C9_returned_values_from_cells [⟨"AbC", some "12.34"⟩]
    { tickers := none, ticker := some (ReqVal.str "abc") }
    [(PyVal.str "ABC", some (mkRat 1234 100))] none none (by decide) ?_
    (PyVal.str "ABC") (mkRat 1234 100) (by decide)
  intro r hr cell q hnav hp
  rw [List.mem_singleton] at hr
  subst hr
  simp only [Option.some.injEq] at hnav
  subst hnav
  have hpf : pyFloat "12.34" = some (mkRat 1234 100) := by decide
  rw [hpf, Option.some.injEq] at hp
  subst hp
  decide

/-- C10: list elements of `tickers` are not validated to be strings; a list
containing the number 5 reaches `ticker.upper()`, raises, and the request
ends as HTTP 500 rather than 400. -/
theorem C10_nonstring_list_500 :
    statusOf (get_nav (FetchResult.resp 200 (CsvBody.table []))
      { tickers := some (ReqVal.list [PyVal.str "TSLW", PyVal.num 5]),
        ticker := none }) = 500 ∧
    statusOf (get_nav (FetchResult.resp 200 (CsvBody.table []))
      { tickers := some (ReqVal.list [PyVal.str "TSLW", PyVal.num 5]),
        ticker := none }) ≠ 400 := by
  refine ⟨by decide, by decide⟩

end NavScraper

